import Mathlib

/-!
Shallow embedding of the glyphh hyperdimensional concept-encoding engine and
of the repository's example/test tree. The engine itself is not shipped in
the repository (only the example scripts and tests that call it are), so the
engine definitions below are modelled from the specification; each such
definition's doc comment says so and names the missing piece.
-/

set_option linter.unusedVariables false
set_option maxRecDepth 100000
set_option maxHeartbeats 1000000

namespace Glyphh

/-- Modelled from the spec: the glyphh engine's attribute values (the engine
is absent from the source tree) are a tagged variant
String / Number / Bool / List of values. -/
inductive Value where
  | str (s : String)
  | num (q : ℚ)
  | boolean (b : Bool)
  | vlist (vs : List Value)

/-- Modelled from the spec: one canonicalization function per variant keeps
token generation deterministic and portable; variant tags keep the variants
apart. -/
def Value.canon : Value → String
  | .str s => "s(" ++ s ++ ")"
  | .num q => "n(" ++ toString q ++ ")"
  | .boolean b => "b(" ++ (if b then "1" else "0") ++ ")"
  | .vlist vs => "l(" ++ String.intercalate ("," ) (vs.attach.map (fun v => Value.canon v.1)) ++ ")"
decreasing_by
  have h := List.sizeOf_lt_of_mem v.2
  simp only [Value.vlist.sizeOf_spec]
  omega

mutual

/-- Modelled from the spec: structural equality of attribute values, used by
the exact-match filter predicate of similarity search. -/
def Value.beqv : Value → Value → Bool
  | .str a, .str b => a == b
  | .num a, .num b => a == b
  | .boolean a, .boolean b => a == b
  | .vlist a, .vlist b => Value.beqList a b
  | _, _ => false

/-- Modelled from the spec: pointwise equality of value lists. -/
def Value.beqList : List Value → List Value → Bool
  | [], [] => true
  | a :: as, b :: bs => Value.beqv a b && Value.beqList as bs
  | _, _ => false

end

/-- Modelled from the spec: a role is a named slot with a similarity weight
(default 1.0). -/
structure Role where
  name : String
  similarity_weight : ℚ := 1

/-- Modelled from the spec: a segment is a named ordered list of roles. -/
structure SegmentConfig where
  name : String
  roles : List Role

/-- Modelled from the spec: a layer is a named ordered list of segments with
a similarity weight (default 1.0). -/
structure LayerConfig where
  name : String
  similarity_weight : ℚ := 1
  segments : List SegmentConfig

/-- Modelled from the spec: encoder configuration; dimension D, seed S and an
ordered list of layers, immutable once constructed. -/
structure EncoderConfig where
  dimension : Nat
  seed : Nat
  layers : List LayerConfig

/-- Modelled from the spec: a concept is a name plus an ordered map from
string keys to values. -/
structure Concept where
  name : String
  attributes : List (String × Value)

/-- Modelled from the spec: a glyph is a concept name, the global cortex
vector, per-layer vectors, and a verbatim copy of the source attributes. -/
structure Glyph where
  name : String
  global_cortex : List ℚ
  layer_vectors : List (String × List ℚ)
  attributes : List (String × Value)

/-- Modelled from the spec: a stable hash of the character stream of
"seed:key". The spec suggests SHA-256 feeding a counter-based RNG; no claim
depends on the particular stable hash, only on its being a pure function of
(seed, key), so a simpler integer hash stands in for it. -/
def tokenHash (seed : Nat) (key : String) : Nat :=
  (toString seed ++ ":" ++ key).data.foldl
    (fun h c => (h * 131 + c.toNat + 1) % 4294967296) 7

/-- Modelled from the spec: one step of the deterministic pseudo-random
stream that expands a token hash into vector components. -/
def mixStep (x : Nat) : Nat := (x * 1103515245 + 12345) % 4294967296

/-- Modelled from the spec: the i-th state of the pseudo-random stream. -/
def mixIter (x : Nat) : Nat → Nat
  | 0 => mixStep x
  | n + 1 => mixStep (mixIter x n)

/-- Modelled from the spec: the deterministic seeded token-to-vector map of
the hypervector generator; D independent bipolar components, a pure function
of (seed, key). -/
def vectorFor (seed dim : Nat) (key : String) : List ℚ :=
  (List.range dim).map
    (fun i => if (mixIter (tokenHash seed key) i / 65536) % 2 = 0 then (1 : ℚ) else -1)

/-- Modelled from the spec: the all-zero vector of width D. -/
def zeroVec (dim : Nat) : List ℚ := List.replicate dim 0

/-- Modelled from the spec: bundling is elementwise (weighted) sum. -/
def vecAdd (a b : List ℚ) : List ℚ := List.zipWith (· + ·) a b

/-- Modelled from the spec: scaling a vector by a similarity weight. -/
def vecScale (c : ℚ) (a : List ℚ) : List ℚ := a.map (fun x => c * x)

/-- Modelled from the spec: binding is elementwise multiplication (the
recommended bipolar algebra). -/
def bindVec (a b : List ℚ) : List ℚ := List.zipWith (· * ·) a b

/-- Modelled from the spec: the dot product underlying the similarity
metric. -/
def dot (a b : List ℚ) : ℚ := (List.zipWith (· * ·) a b).sum

/-- Modelled from the spec: the token key of a role slot. -/
def roleKey (l : LayerConfig) (sg : SegmentConfig) (r : Role) : String :=
  "role:" ++ l.name ++ ":" ++ sg.name ++ ":" ++ r.name

/-- Modelled from the spec: the token key of a canonicalized attribute
value. -/
def valueKey (v : Value) : String := "value:" ++ v.canon

/-- Modelled from the spec: the contribution of one role to its segment
vector — zero when the concept has no attribute matching the role name,
otherwise the role-filler binding scaled by the role weight. -/
def roleContrib (cfg : EncoderConfig) (l : LayerConfig) (sg : SegmentConfig)
    (attrs : List (String × Value)) (r : Role) : List ℚ :=
  match attrs.lookup r.name with
  | none => zeroVec cfg.dimension
  | some v =>
      vecScale r.similarity_weight
        (bindVec (vectorFor cfg.seed cfg.dimension (roleKey l sg r))
          (vectorFor cfg.seed cfg.dimension (valueKey v)))

/-- Modelled from the spec: bundling of the role contributions of a
segment. -/
def segVecAux (cfg : EncoderConfig) (l : LayerConfig) (sg : SegmentConfig)
    (attrs : List (String × Value)) : List Role → List ℚ
  | [] => zeroVec cfg.dimension
  | r :: rs => vecAdd (roleContrib cfg l sg attrs r) (segVecAux cfg l sg attrs rs)

/-- Modelled from the spec: bundling of the segment vectors of a layer. -/
def layerVecSum (cfg : EncoderConfig) (l : LayerConfig)
    (attrs : List (String × Value)) : List SegmentConfig → List ℚ
  | [] => zeroVec cfg.dimension
  | sg :: sgs => vecAdd (segVecAux cfg l sg attrs sg.roles) (layerVecSum cfg l attrs sgs)

/-- Modelled from the spec: the vector of one layer, scaled by the layer
weight. -/
def layerVec (cfg : EncoderConfig) (attrs : List (String × Value))
    (l : LayerConfig) : List ℚ :=
  vecScale l.similarity_weight (layerVecSum cfg l attrs l.segments)

/-- Modelled from the spec: bundling of all layer vectors into the global
cortex. -/
def globalAux (cfg : EncoderConfig) (attrs : List (String × Value)) :
    List LayerConfig → List ℚ
  | [] => zeroVec cfg.dimension
  | l :: ls => vecAdd (layerVec cfg attrs l) (globalAux cfg attrs ls)

/-- Modelled from the spec: Encoder.encode compiles a config plus a concept
into a glyph via binding and weighted bundling; the source attributes are
copied verbatim into the glyph. -/
def encode (cfg : EncoderConfig) (c : Concept) : Glyph :=
  { name := c.name
    global_cortex := globalAux cfg c.attributes cfg.layers
    layer_vectors := cfg.layers.map (fun l => (l.name, layerVec cfg c.attributes l))
    attributes := c.attributes }

/-- Modelled from the spec: the generator's per-encoder memo cache mapping a
token key to its already computed vector. -/
abbrev Cache : Type := List (String × List ℚ)

/-- Modelled from the spec: vector_for with memoization — return the cached
vector when the key is present, otherwise compute it and record it. -/
def vectorForC (cfg : EncoderConfig) (cache : Cache) (key : String) :
    List ℚ × Cache :=
  match List.lookup key cache with
  | some v => (v, cache)
  | none =>
      (vectorFor cfg.seed cfg.dimension key,
        (key, vectorFor cfg.seed cfg.dimension key) :: cache)

/-- A cache is consistent when every entry holds exactly the vector the pure
generator assigns to its key. -/
abbrev CacheOK (cfg : EncoderConfig) (cache : Cache) : Prop :=
  ∀ p ∈ cache, p.2 = vectorFor cfg.seed cfg.dimension p.1

/-- Modelled from the spec: the role loop of encode with the memo cache
threaded through the generator calls. -/
def segVecC (cfg : EncoderConfig) (l : LayerConfig) (sg : SegmentConfig)
    (attrs : List (String × Value)) : List Role → Cache → List ℚ × Cache
  | [], cache => (zeroVec cfg.dimension, cache)
  | r :: rs, cache =>
      match attrs.lookup r.name with
      | none =>
          let rest := segVecC cfg l sg attrs rs cache
          (vecAdd (zeroVec cfg.dimension) rest.1, rest.2)
      | some v =>
          let rv := vectorForC cfg cache (roleKey l sg r)
          let fv := vectorForC cfg rv.2 (valueKey v)
          let rest := segVecC cfg l sg attrs rs fv.2
          (vecAdd (vecScale r.similarity_weight (bindVec rv.1 fv.1)) rest.1, rest.2)

/-- Modelled from the spec: the segment loop of encode with the memo cache
threaded through. -/
def layerVecSumC (cfg : EncoderConfig) (l : LayerConfig)
    (attrs : List (String × Value)) : List SegmentConfig → Cache → List ℚ × Cache
  | [], cache => (zeroVec cfg.dimension, cache)
  | sg :: sgs, cache =>
      let sv := segVecC cfg l sg attrs sg.roles cache
      let rest := layerVecSumC cfg l attrs sgs sv.2
      (vecAdd sv.1 rest.1, rest.2)

/-- Modelled from the spec: the layer loop of encode with the memo cache
threaded through, producing the named per-layer vectors. -/
def layerPairsC (cfg : EncoderConfig) (attrs : List (String × Value)) :
    List LayerConfig → Cache → List (String × List ℚ) × Cache
  | [], cache => ([], cache)
  | l :: ls, cache =>
      let lv := layerVecSumC cfg l attrs l.segments cache
      let rest := layerPairsC cfg attrs ls lv.2
      ((l.name, vecScale l.similarity_weight lv.1) :: rest.1, rest.2)

/-- Modelled from the spec: bundling of already computed layer vectors. -/
def sumLayerPairs (cfg : EncoderConfig) : List (String × List ℚ) → List ℚ
  | [] => zeroVec cfg.dimension
  | p :: ps => vecAdd p.2 (sumLayerPairs cfg ps)

/-- Modelled from the spec: Encoder.encode as it runs inside one encoder
instance, with the generator's memo cache threaded through every
vector_for call; returns the glyph together with the updated cache. -/
def encodeCached (cfg : EncoderConfig) (cache : Cache) (c : Concept) :
    Glyph × Cache :=
  let lp := layerPairsC cfg c.attributes cfg.layers cache
  ({ name := c.name
     global_cortex := sumLayerPairs cfg lp.1
     layer_vectors := lp.1
     attributes := c.attributes }, lp.2)

/-- Modelled from the spec: the result record of the similarity
calculator. -/
structure SimilarityOutcome where
  score : ℚ
  edge_type : String

/-- Modelled from the spec: the vector a similarity comparison runs on — the
layer named by edge_type when the glyph has one, otherwise the global
cortex (unknown edge_type falls back to the global vector). -/
def selectVec (g : Glyph) (edge_type : String) : List ℚ :=
  match List.lookup edge_type g.layer_vectors with
  | some v => v
  | none => g.global_cortex

/-- Modelled from the spec: cosine similarity on the selected vectors. To
keep the model rational-valued and executable, the cosine c = d/(|a||b|) is
represented by its strictly monotone image c|c| = sign(d)·d²/(|a|²|b|²),
which has the same symmetry, bounds, and ranking behaviour; a zero vector
scores 0. -/
def simScore (a b : List ℚ) : ℚ :=
  if dot a a = 0 ∨ dot b b = 0 then 0
  else (if dot a b < 0 then -1 else 1) * dot a b ^ 2 / (dot a a * dot b b)

/-- Modelled from the spec: SimilarityCalculator.compute_similarity scores
two glyphs on the vector selected by edge_type. -/
def compute_similarity (A B : Glyph) (edge_type : String) : SimilarityOutcome :=
  { score := simScore (selectVec A edge_type) (selectVec B edge_type)
    edge_type := edge_type }

/-- Modelled from the spec: whether a key names a role anywhere in the
config's layer/segment/role schema. -/
def roleNameInConfig (cfg : EncoderConfig) (key : String) : Bool :=
  cfg.layers.any (fun l => l.segments.any (fun sg => sg.roles.any (fun r => r.name == key)))

/-- The same concept with every attribute whose key matches no schema role
removed; used to state that unmatched attributes contribute nothing to the
vectors. -/
def stripUnmatched (cfg : EncoderConfig) (c : Concept) : Concept :=
  { c with attributes := c.attributes.filter (fun p => roleNameInConfig cfg p.1) }

/-- Modelled from the spec: an intent pattern is an intent type, example
phrases, and an opaque structured query template. -/
structure IntentPattern where
  intent_type : String
  example_phrases : List String
  query_template : String

/-- Modelled from the spec: the result of intent matching. -/
structure IntentMatch where
  intent_type : String
  confidence : ℚ
  structured_query : String

/-- Modelled from the spec: a similarity-search result carries the matched
concept name, its score, and its stored attributes. -/
structure SimilarityResult where
  concept : String
  score : ℚ
  attributes : List (String × Value)

/-- Modelled from the spec: the model container aggregating config, glyphs,
intent patterns and metadata. -/
structure GlyphhModel where
  name : String
  version : String
  encoder_config : EncoderConfig
  glyphs : List Glyph
  intent_patterns : List IntentPattern
  metadata : List (String × Value)

/-- Modelled from the spec: the exact-match filter predicate over stored
source attributes, applied before ranking. -/
def attrsMatch (filters : List (String × Value)) (attrs : List (String × Value)) : Bool :=
  filters.all (fun f =>
    match attrs.lookup f.1 with
    | some v => Value.beqv v f.2
    | none => false)

/-- Modelled from the spec: a string query is wrapped as a single-attribute
pseudo-concept and encoded so it lands in the same space as indexed
glyphs. -/
def queryGlyph (cfg : EncoderConfig) (query : String) : Glyph :=
  encode cfg { name := query, attributes := [(("query"), Value.str query)] }

/-- Modelled from the spec: GlyphhModel.similarity_search — filter by exact
attribute match, score against the encoded query, rank by descending score
(stable, so ties keep insertion order), truncate to top_k; non-positive
top_k or an empty model yields the empty result set. -/
def similarity_search (M : GlyphhModel) (query : String) (top_k : Int)
    (filters : List (String × Value)) : List SimilarityResult :=
  let qg := queryGlyph M.encoder_config query
  let scored := (M.glyphs.filter (fun g => attrsMatch filters g.attributes)).map
    (fun g => { concept := g.name
                score := simScore qg.global_cortex g.global_cortex
                attributes := g.attributes })
  (scored.insertionSort (fun a b => b.score ≤ a.score)).take top_k.toNat

/-- Modelled from the spec: the versioned self-describing artifact written by
export — format tag, full encoder config, ordered glyph set, intent
patterns, metadata (the spec leaves the byte layout an implementation
choice subject to the round-trip and versioning invariants). -/
structure Artifact where
  format_version : Nat
  name : String
  version : String
  encoder_config : EncoderConfig
  glyphs : List Glyph
  intent_patterns : List IntentPattern
  metadata : List (String × Value)

/-- Modelled from the spec: the current artifact format version tag. -/
def FORMAT_VERSION : Nat := 1

/-- Modelled from the spec: GlyphhModel.export / to_file freezes the full
model state into one versioned artifact. -/
def exportModel (M : GlyphhModel) : Artifact :=
  { format_version := FORMAT_VERSION
    name := M.name
    version := M.version
    encoder_config := M.encoder_config
    glyphs := M.glyphs
    intent_patterns := M.intent_patterns
    metadata := M.metadata }

/-- Modelled from the spec: GlyphhModel.load / from_file reconstructs a model
from an artifact, failing on a version-incompatible artifact
(SerializationError). -/
def loadModel (a : Artifact) : Except String GlyphhModel :=
  if a.format_version = FORMAT_VERSION then
    Except.ok
      { name := a.name
        version := a.version
        encoder_config := a.encoder_config
        glyphs := a.glyphs
        intent_patterns := a.intent_patterns
        metadata := a.metadata }
  else Except.error ("SerializationError: incompatible artifact version")

/-- Modelled from the spec: the IntentEncoder's state — its config and the
registered patterns. -/
structure IntentEncoderState where
  config : EncoderConfig
  patterns : List IntentPattern

/-- Modelled from the spec: bundling of a list of already encoded vectors. -/
def sumVecs (dim : Nat) : List (List ℚ) → List ℚ
  | [] => zeroVec dim
  | v :: vs => vecAdd v (sumVecs dim vs)

/-- Modelled from the spec: a phrase is encoded as a single pseudo-attribute
concept, landing in the same space as indexed glyphs. -/
def phraseVec (cfg : EncoderConfig) (phrase : String) : List ℚ :=
  (encode cfg { name := phrase, attributes := [(("phrase"), Value.str phrase)] }).global_cortex

/-- Modelled from the spec: one prototype vector per pattern, the bundle of
its encoded example phrases. -/
def prototypeVec (cfg : EncoderConfig) (p : IntentPattern) : List ℚ :=
  sumVecs cfg.dimension (p.example_phrases.map (phraseVec cfg))

/-- Modelled from the spec: the null / zero-confidence intent match. -/
def nullIntentMatch : IntentMatch :=
  { intent_type := "", confidence := 0, structured_query := "" }

/-- Modelled from the spec: deterministic arg-max over pattern prototypes;
earlier patterns win ties. -/
def bestMatch (cfg : EncoderConfig) (qv : List ℚ) :
    List IntentPattern → Option (IntentPattern × ℚ)
  | [] => none
  | p :: ps =>
      let s := simScore qv (prototypeVec cfg p)
      match bestMatch cfg qv ps with
      | none => some (p, s)
      | some best => if best.2 > s then some best else some (p, s)

/-- Modelled from the spec: IntentEncoder.match_intent — encode the query,
compare against every prototype, return the arg-max with its score as
confidence; zero registered patterns yield the null match. -/
def match_intent (E : IntentEncoderState) (query : String) : IntentMatch :=
  match bestMatch E.config (phraseVec E.config query) E.patterns with
  | none => nullIntentMatch
  | some best =>
      { intent_type := best.1.intent_type
        confidence := best.2
        structured_query := best.1.query_template }

/-- Modelled from the spec: the fixed reversible transform denoting one step
forward in time — a cyclic shift. -/
def permuteVec (v : List ℚ) : List ℚ := v.rotate 1

/-- Modelled from the spec: the inverse of the one-step-forward transform. -/
def unpermuteVec (v : List ℚ) : List ℚ := v.rotate (v.length - 1)

/-- Modelled from the spec: the raw temporal-delta primitive,
bind(a, permute(b)). -/
def compute_temporal_delta (a b : List ℚ) : List ℚ := bindVec a (permuteVec b)

/-- Modelled from the spec: a temporal edge holds references to its endpoint
concepts (here their names and encoded cortices), the delta vector and an
edge-type tag. -/
structure TemporalEdge where
  from_name : String
  to_name : String
  from_vec : List ℚ
  to_vec : List ℚ
  delta : List ℚ
  edge_type : String

/-- Modelled from the spec: TemporalEncoder.create_edge encodes both concepts
and stores the delta between them. -/
def create_edge (cfg : EncoderConfig) (c1 c2 : Concept) (edge_type : String) :
    TemporalEdge :=
  let g1 := encode cfg c1
  let g2 := encode cfg c2
  { from_name := c1.name
    to_name := c2.name
    from_vec := g1.global_cortex
    to_vec := g2.global_cortex
    delta := compute_temporal_delta g1.global_cortex g2.global_cortex
    edge_type := edge_type }

/-- Modelled from the spec: the beam-search predictor's constructor
parameters. -/
structure BeamSearchPredictor where
  beam_width : Nat
  drift_reduction : Bool

/-- Modelled from the spec: a beam hypothesis / output candidate — predicted
concept name, state vector, cumulative score, and its insertion index within
its generation (used to break score ties). -/
structure PredCandidate where
  name : String
  vec : List ℚ
  score : ℚ
  idx : Nat

/-- Modelled from the spec: drift reduction snaps each component of a
surviving candidate back toward valid bipolar values. -/
def snapVec (v : List ℚ) : List ℚ :=
  v.map (fun x => if 0 < x then (1 : ℚ) else if x < 0 then -1 else 0)

/-- Modelled from the spec: the larger of the similarity scores of a
candidate against every known successor state (0 when there are none). -/
def bestSuccScore (edges : List TemporalEdge) (v : List ℚ) : ℚ :=
  (edges.map (fun e => simScore v e.to_vec)).foldr max 0

/-- Modelled from the spec: expanding one hypothesis — apply every historical
edge's delta (undoing the one-step permutation), optionally denoise, and
score by similarity to the nearest known successor. -/
def expandHyp (P : BeamSearchPredictor) (edges : List TemporalEdge)
    (h : PredCandidate) : List PredCandidate :=
  edges.map (fun e =>
    let v0 := unpermuteVec (bindVec h.vec e.delta)
    let v := if P.drift_reduction then snapVec v0 else v0
    { name := e.to_name
      vec := v
      score := h.score + bestSuccScore edges v
      idx := 0 })

/-- Candidates of one generation numbered in the order they were produced. -/
def withIdx (cs : List PredCandidate) : List PredCandidate :=
  cs.enum.map (fun p => { p.2 with idx := p.1 })

/-- The ranking relation on candidates the spec asks for: descending score,
equal scores broken by insertion order. -/
def beamRank (a b : PredCandidate) : Prop :=
  b.score < a.score ∨ (a.score = b.score ∧ a.idx ≤ b.idx)

instance : DecidableRel beamRank := fun a b =>
  inferInstanceAs (Decidable (b.score < a.score ∨ (a.score = b.score ∧ a.idx ≤ b.idx)))

instance : IsTotal PredCandidate beamRank where
  total a b := by
    rcases lt_trichotomy a.score b.score with h | h | h
    · exact Or.inr (Or.inl h)
    · rcases Nat.le_total a.idx b.idx with hi | hi
      · exact Or.inl (Or.inr ⟨h, hi⟩)
      · exact Or.inr (Or.inr ⟨h.symm, hi⟩)
    · exact Or.inl (Or.inl h)

instance : IsTrans PredCandidate beamRank where
  trans a b c hab hbc := by
    rcases hab with hab | ⟨hab, hiab⟩
    · rcases hbc with hbc | ⟨hbc, _⟩
      · exact Or.inl (hbc.trans hab)
      · exact Or.inl (hbc ▸ hab)
    · rcases hbc with hbc | ⟨hbc, hibc⟩
      · exact Or.inl (by rw [hab]; exact hbc)
      · exact Or.inr ⟨hab.trans hbc, hiab.trans hibc⟩

/-- Modelled from the spec: one beam-search step — expand every hypothesis
through the historical edges, then keep the top beam_width candidates by
score (stable insertion sort, ties broken by insertion order). -/
def beamStep (P : BeamSearchPredictor) (edges : List TemporalEdge)
    (beam : List PredCandidate) : List PredCandidate :=
  ((withIdx (beam.flatMap (expandHyp P edges))).insertionSort beamRank).take P.beam_width

/-- Modelled from the spec: iterating the beam step. -/
def beamIter (P : BeamSearchPredictor) (edges : List TemporalEdge) :
    Nat → List PredCandidate → List PredCandidate
  | 0, beam => beam
  | n + 1, beam => beamIter P edges n (beamStep P edges beam)

/-- Modelled from the spec: BeamSearchPredictor.predict — start from the
current glyph's cortex as the single hypothesis, run the beam step once per
requested step, and return the final ranked candidates (no steps means no
predictions). -/
def predict (P : BeamSearchPredictor) (current : Glyph)
    (edges : List TemporalEdge) (steps : Nat) : List PredCandidate :=
  match steps with
  | 0 => []
  | n + 1 =>
      beamIter P edges n
        (beamStep P edges
          [{ name := current.name, vec := current.global_cortex, score := 0, idx := 0 }])

/-- Prefix test on code-point lists, supporting the substring membership
check of the test suite; kept on Nat so proofs evaluate cheaply. -/
def natPrefix : List Nat → List Nat → Bool
  | [], _ => true
  | _ :: _, [] => false
  | a :: as, b :: bs => a == b && natPrefix as bs

/-- Contiguous-sublist test on code-point lists, embedding Python's
`needle in content` check used by test_model_file_structure. -/
def natInfixAt (pat : List Nat) : List Nat → Bool
  | [] => natPrefix pat []
  | c :: t => natPrefix pat (c :: t) || natInfixAt pat t

/-- The code points of a string, connecting string literals to the Nat-level
substring test. -/
def strCodes (s : String) : List Nat := s.data.map Char.toNat

/-- Embeds Python's substring containment test `pat in hay` on code-point
lists. -/
def codesContain (hay pat : List Nat) : Bool := natInfixAt pat hay

/-- Embeds Python's `str.endswith` on strings. -/
def strEndsWith (s suf : String) : Bool :=
  natPrefix (strCodes suf).reverse (strCodes s).reverse

/-- The directory listing of src/examples as shipped in the repository. -/
def examplesDirListing : List String :=
  [("audit_trail.py"), ("basic_model.py"), ("churn_prediction.py"),
   ("customer_sentiment.py"), ("drug_interactions.py"), ("faq_verification.py"),
   ("financial_rules.py"), ("fraud_detection.py"), ("intent_patterns.py"),
   ("inventory_management.py"), ("medical_protocols.py"), ("patient_triage.py"),
   ("policy_compliance.py"), ("product_catalog.py"), ("recommendation_engine.py"),
   ("ticket_routing.py"), ("tool_router.py"), ("tool_router_benchmark.py"),
   ("trend_analysis.py"), ("user_segmentation.py")]

/-- Embeds tests/test_examples_properties.py get_all_model_files: the .py
files of the examples directory other than __init__.py and README.md. -/
def get_all_model_files : List String :=
  examplesDirListing.filter
    (fun f => strEndsWith f (".py") && f != "__init__.py" && f != "README.md")

/-- The full text of src/examples/basic_model.py as shipped, given as the
list of Unicode code points of its characters (which determines the text
exactly), so that the substring checks of the test reduce to fast Nat
comparisons. -/
def basicModelCodes : List Nat :=
  [
    34, 34, 34, 10, 66, 97, 115, 105, 99, 32, 71, 108, 121, 112, 104, 104, 32, 77, 111, 100,
    101, 108, 32, 69, 120, 97, 109, 112, 108, 101, 10, 10, 84, 104, 105, 115, 32, 101, 120, 97,
    109, 112, 108, 101, 32, 100, 101, 109, 111, 110, 115, 116, 114, 97, 116, 101, 115, 58, 10, 49,
    46, 32, 67, 114, 101, 97, 116, 105, 110, 103, 32, 97, 110, 32, 101, 110, 99, 111, 100, 101,
    114, 32, 119, 105, 116, 104, 32, 101, 120, 112, 108, 105, 99, 105, 116, 32, 99, 111, 110, 102,
    105, 103, 32, 115, 116, 114, 117, 99, 116, 117, 114, 101, 10, 50, 46, 32, 69, 110, 99, 111,
    100, 105, 110, 103, 32, 99, 111, 110, 99, 101, 112, 116, 115, 32, 105, 110, 116, 111, 32, 103,
    108, 121, 112, 104, 115, 10, 51, 46, 32, 67, 111, 109, 112, 117, 116, 105, 110, 103, 32, 115,
    105, 109, 105, 108, 97, 114, 105, 116, 121, 32, 98, 101, 116, 119, 101, 101, 110, 32, 99, 111,
    110, 99, 101, 112, 116, 115, 10, 52, 46, 32, 80, 97, 99, 107, 97, 103, 105, 110, 103, 32,
    97, 110, 100, 32, 101, 120, 112, 111, 114, 116, 105, 110, 103, 32, 116, 104, 101, 32, 109, 111,
    100, 101, 108, 10, 34, 34, 34, 10, 10, 102, 114, 111, 109, 32, 103, 108, 121, 112, 104, 104,
    32, 105, 109, 112, 111, 114, 116, 32, 40, 10, 32, 32, 32, 32, 69, 110, 99, 111, 100, 101,
    114, 44, 32, 69, 110, 99, 111, 100, 101, 114, 67, 111, 110, 102, 105, 103, 44, 32, 67, 111,
    110, 99, 101, 112, 116, 44, 32, 71, 108, 121, 112, 104, 104, 77, 111, 100, 101, 108, 44, 10,
    32, 32, 32, 32, 83, 105, 109, 105, 108, 97, 114, 105, 116, 121, 67, 97, 108, 99, 117, 108,
    97, 116, 111, 114, 44, 32, 76, 97, 121, 101, 114, 67, 111, 110, 102, 105, 103, 44, 32, 83,
    101, 103, 109, 101, 110, 116, 67, 111, 110, 102, 105, 103, 44, 32, 82, 111, 108, 101, 10, 41,
    10, 10, 35, 32, 67, 111, 110, 102, 105, 103, 117, 114, 101, 32, 116, 104, 101, 32, 101, 110,
    99, 111, 100, 101, 114, 32, 119, 105, 116, 104, 32, 101, 120, 112, 108, 105, 99, 105, 116, 32,
    115, 116, 114, 117, 99, 116, 117, 114, 101, 10, 99, 111, 110, 102, 105, 103, 32, 61, 32, 69,
    110, 99, 111, 100, 101, 114, 67, 111, 110, 102, 105, 103, 40, 10, 32, 32, 32, 32, 100, 105,
    109, 101, 110, 115, 105, 111, 110, 61, 49, 48, 48, 48, 48, 44, 32, 32, 35, 32, 86, 101,
    99, 116, 111, 114, 32, 100, 105, 109, 101, 110, 115, 105, 111, 110, 10, 32, 32, 32, 32, 115,
    101, 101, 100, 61, 52, 50, 44, 32, 32, 32, 32, 32, 32, 32, 32, 32, 32, 35, 32, 70,
    111, 114, 32, 114, 101, 112, 114, 111, 100, 117, 99, 105, 98, 105, 108, 105, 116, 121, 10, 32,
    32, 32, 32, 108, 97, 121, 101, 114, 115, 61, 91, 10, 32, 32, 32, 32, 32, 32, 32, 32,
    76, 97, 121, 101, 114, 67, 111, 110, 102, 105, 103, 40, 10, 32, 32, 32, 32, 32, 32, 32,
    32, 32, 32, 32, 32, 110, 97, 109, 101, 61, 34, 115, 101, 109, 97, 110, 116, 105, 99, 34,
    44, 10, 32, 32, 32, 32, 32, 32, 32, 32, 32, 32, 32, 32, 115, 105, 109, 105, 108, 97,
    114, 105, 116, 121, 95, 119, 101, 105, 103, 104, 116, 61, 49, 46, 48, 44, 10, 32, 32, 32,
    32, 32, 32, 32, 32, 32, 32, 32, 32, 115, 101, 103, 109, 101, 110, 116, 115, 61, 91, 10,
    32, 32, 32, 32, 32, 32, 32, 32, 32, 32, 32, 32, 32, 32, 32, 32, 83, 101, 103, 109,
    101, 110, 116, 67, 111, 110, 102, 105, 103, 40, 10, 32, 32, 32, 32, 32, 32, 32, 32, 32,
    32, 32, 32, 32, 32, 32, 32, 32, 32, 32, 32, 110, 97, 109, 101, 61, 34, 97, 116, 116,
    114, 105, 98, 117, 116, 101, 115, 34, 44, 10, 32, 32, 32, 32, 32, 32, 32, 32, 32, 32,
    32, 32, 32, 32, 32, 32, 32, 32, 32, 32, 114, 111, 108, 101, 115, 61, 91, 10, 32, 32,
    32, 32, 32, 32, 32, 32, 32, 32, 32, 32, 32, 32, 32, 32, 32, 32, 32, 32, 32, 32,
    32, 32, 82, 111, 108, 101, 40, 110, 97, 109, 101, 61, 34, 100, 111, 109, 97, 105, 110, 34,
    44, 32, 115, 105, 109, 105, 108, 97, 114, 105, 116, 121, 95, 119, 101, 105, 103, 104, 116, 61,
    48, 46, 56, 41, 44, 10, 32, 32, 32, 32, 32, 32, 32, 32, 32, 32, 32, 32, 32, 32,
    32, 32, 32, 32, 32, 32, 32, 32, 32, 32, 82, 111, 108, 101, 40, 110, 97, 109, 101, 61,
    34, 116, 121, 112, 101, 34, 44, 32, 115, 105, 109, 105, 108, 97, 114, 105, 116, 121, 95, 119,
    101, 105, 103, 104, 116, 61, 49, 46, 48, 41, 44, 10, 32, 32, 32, 32, 32, 32, 32, 32,
    32, 32, 32, 32, 32, 32, 32, 32, 32, 32, 32, 32, 32, 32, 32, 32, 82, 111, 108, 101,
    40, 110, 97, 109, 101, 61, 34, 100, 101, 115, 99, 114, 105, 112, 116, 105, 111, 110, 34, 44,
    32, 115, 105, 109, 105, 108, 97, 114, 105, 116, 121, 95, 119, 101, 105, 103, 104, 116, 61, 48,
    46, 54, 41, 44, 10, 32, 32, 32, 32, 32, 32, 32, 32, 32, 32, 32, 32, 32, 32, 32,
    32, 32, 32, 32, 32, 93, 10, 32, 32, 32, 32, 32, 32, 32, 32, 32, 32, 32, 32, 32,
    32, 32, 32, 41, 10, 32, 32, 32, 32, 32, 32, 32, 32, 32, 32, 32, 32, 93, 10, 32,
    32, 32, 32, 32, 32, 32, 32, 41, 10, 32, 32, 32, 32, 93, 10, 41, 10, 10, 35, 32,
    67, 114, 101, 97, 116, 101, 32, 101, 110, 99, 111, 100, 101, 114, 10, 101, 110, 99, 111, 100,
    101, 114, 32, 61, 32, 69, 110, 99, 111, 100, 101, 114, 40, 99, 111, 110, 102, 105, 103, 41,
    10, 112, 114, 105, 110, 116, 40, 102, 34, 69, 110, 99, 111, 100, 101, 114, 32, 99, 114, 101,
    97, 116, 101, 100, 58, 32, 115, 112, 97, 99, 101, 95, 105, 100, 61, 123, 101, 110, 99, 111,
    100, 101, 114, 46, 115, 112, 97, 99, 101, 95, 105, 100, 125, 34, 41, 10, 10, 35, 32, 68,
    101, 102, 105, 110, 101, 32, 99, 111, 110, 99, 101, 112, 116, 115, 10, 99, 111, 110, 99, 101,
    112, 116, 115, 32, 61, 32, 91, 10, 32, 32, 32, 32, 67, 111, 110, 99, 101, 112, 116, 40,
    10, 32, 32, 32, 32, 32, 32, 32, 32, 110, 97, 109, 101, 61, 34, 109, 97, 99, 104, 105,
    110, 101, 32, 108, 101, 97, 114, 110, 105, 110, 103, 34, 44, 10, 32, 32, 32, 32, 32, 32,
    32, 32, 97, 116, 116, 114, 105, 98, 117, 116, 101, 115, 61, 123, 10, 32, 32, 32, 32, 32,
    32, 32, 32, 32, 32, 32, 32, 34, 100, 111, 109, 97, 105, 110, 34, 58, 32, 34, 97, 114,
    116, 105, 102, 105, 99, 105, 97, 108, 32, 105, 110, 116, 101, 108, 108, 105, 103, 101, 110, 99,
    101, 34, 44, 10, 32, 32, 32, 32, 32, 32, 32, 32, 32, 32, 32, 32, 34, 116, 121, 112,
    101, 34, 58, 32, 34, 116, 101, 99, 104, 110, 105, 113, 117, 101, 34, 44, 10, 32, 32, 32,
    32, 32, 32, 32, 32, 32, 32, 32, 32, 34, 100, 101, 115, 99, 114, 105, 112, 116, 105, 111,
    110, 34, 58, 32, 34, 83, 121, 115, 116, 101, 109, 115, 32, 116, 104, 97, 116, 32, 108, 101,
    97, 114, 110, 32, 102, 114, 111, 109, 32, 100, 97, 116, 97, 34, 10, 32, 32, 32, 32, 32,
    32, 32, 32, 125, 10, 32, 32, 32, 32, 41, 44, 10, 32, 32, 32, 32, 67, 111, 110, 99,
    101, 112, 116, 40, 10, 32, 32, 32, 32, 32, 32, 32, 32, 110, 97, 109, 101, 61, 34, 110,
    101, 117, 114, 97, 108, 32, 110, 101, 116, 119, 111, 114, 107, 34, 44, 10, 32, 32, 32, 32,
    32, 32, 32, 32, 97, 116, 116, 114, 105, 98, 117, 116, 101, 115, 61, 123, 10, 32, 32, 32,
    32, 32, 32, 32, 32, 32, 32, 32, 32, 34, 100, 111, 109, 97, 105, 110, 34, 58, 32, 34,
    97, 114, 116, 105, 102, 105, 99, 105, 97, 108, 32, 105, 110, 116, 101, 108, 108, 105, 103, 101,
    110, 99, 101, 34, 44, 10, 32, 32, 32, 32, 32, 32, 32, 32, 32, 32, 32, 32, 34, 116,
    121, 112, 101, 34, 58, 32, 34, 97, 114, 99, 104, 105, 116, 101, 99, 116, 117, 114, 101, 34,
    44, 10, 32, 32, 32, 32, 32, 32, 32, 32, 32, 32, 32, 32, 34, 100, 101, 115, 99, 114,
    105, 112, 116, 105, 111, 110, 34, 58, 32, 34, 67, 111, 109, 112, 117, 116, 105, 110, 103, 32,
    115, 121, 115, 116, 101, 109, 115, 32, 105, 110, 115, 112, 105, 114, 101, 100, 32, 98, 121, 32,
    98, 105, 111, 108, 111, 103, 105, 99, 97, 108, 32, 98, 114, 97, 105, 110, 115, 34, 10, 32,
    32, 32, 32, 32, 32, 32, 32, 125, 10, 32, 32, 32, 32, 41, 44, 10, 32, 32, 32, 32,
    67, 111, 110, 99, 101, 112, 116, 40, 10, 32, 32, 32, 32, 32, 32, 32, 32, 110, 97, 109,
    101, 61, 34, 100, 101, 101, 112, 32, 108, 101, 97, 114, 110, 105, 110, 103, 34, 44, 10, 32,
    32, 32, 32, 32, 32, 32, 32, 97, 116, 116, 114, 105, 98, 117, 116, 101, 115, 61, 123, 10,
    32, 32, 32, 32, 32, 32, 32, 32, 32, 32, 32, 32, 34, 100, 111, 109, 97, 105, 110, 34,
    58, 32, 34, 97, 114, 116, 105, 102, 105, 99, 105, 97, 108, 32, 105, 110, 116, 101, 108, 108,
    105, 103, 101, 110, 99, 101, 34, 44, 10, 32, 32, 32, 32, 32, 32, 32, 32, 32, 32, 32,
    32, 34, 116, 121, 112, 101, 34, 58, 32, 34, 116, 101, 99, 104, 110, 105, 113, 117, 101, 34,
    44, 10, 32, 32, 32, 32, 32, 32, 32, 32, 32, 32, 32, 32, 34, 100, 101, 115, 99, 114,
    105, 112, 116, 105, 111, 110, 34, 58, 32, 34, 78, 101, 117, 114, 97, 108, 32, 110, 101, 116,
    119, 111, 114, 107, 115, 32, 119, 105, 116, 104, 32, 109, 97, 110, 121, 32, 108, 97, 121, 101,
    114, 115, 34, 10, 32, 32, 32, 32, 32, 32, 32, 32, 125, 10, 32, 32, 32, 32, 41, 44,
    10, 32, 32, 32, 32, 67, 111, 110, 99, 101, 112, 116, 40, 10, 32, 32, 32, 32, 32, 32,
    32, 32, 110, 97, 109, 101, 61, 34, 114, 101, 105, 110, 102, 111, 114, 99, 101, 109, 101, 110,
    116, 32, 108, 101, 97, 114, 110, 105, 110, 103, 34, 44, 10, 32, 32, 32, 32, 32, 32, 32,
    32, 97, 116, 116, 114, 105, 98, 117, 116, 101, 115, 61, 123, 10, 32, 32, 32, 32, 32, 32,
    32, 32, 32, 32, 32, 32, 34, 100, 111, 109, 97, 105, 110, 34, 58, 32, 34, 97, 114, 116,
    105, 102, 105, 99, 105, 97, 108, 32, 105, 110, 116, 101, 108, 108, 105, 103, 101, 110, 99, 101,
    34, 44, 10, 32, 32, 32, 32, 32, 32, 32, 32, 32, 32, 32, 32, 34, 116, 121, 112, 101,
    34, 58, 32, 34, 116, 101, 99, 104, 110, 105, 113, 117, 101, 34, 44, 10, 32, 32, 32, 32,
    32, 32, 32, 32, 32, 32, 32, 32, 34, 100, 101, 115, 99, 114, 105, 112, 116, 105, 111, 110,
    34, 58, 32, 34, 76, 101, 97, 114, 110, 105, 110, 103, 32, 116, 104, 114, 111, 117, 103, 104,
    32, 114, 101, 119, 97, 114, 100, 115, 32, 97, 110, 100, 32, 112, 101, 110, 97, 108, 116, 105,
    101, 115, 34, 10, 32, 32, 32, 32, 32, 32, 32, 32, 125, 10, 32, 32, 32, 32, 41, 44,
    10, 32, 32, 32, 32, 67, 111, 110, 99, 101, 112, 116, 40, 10, 32, 32, 32, 32, 32, 32,
    32, 32, 110, 97, 109, 101, 61, 34, 110, 97, 116, 117, 114, 97, 108, 32, 108, 97, 110, 103,
    117, 97, 103, 101, 32, 112, 114, 111, 99, 101, 115, 115, 105, 110, 103, 34, 44, 10, 32, 32,
    32, 32, 32, 32, 32, 32, 97, 116, 116, 114, 105, 98, 117, 116, 101, 115, 61, 123, 10, 32,
    32, 32, 32, 32, 32, 32, 32, 32, 32, 32, 32, 34, 100, 111, 109, 97, 105, 110, 34, 58,
    32, 34, 97, 114, 116, 105, 102, 105, 99, 105, 97, 108, 32, 105, 110, 116, 101, 108, 108, 105,
    103, 101, 110, 99, 101, 34, 44, 10, 32, 32, 32, 32, 32, 32, 32, 32, 32, 32, 32, 32,
    34, 116, 121, 112, 101, 34, 58, 32, 34, 97, 112, 112, 108, 105, 99, 97, 116, 105, 111, 110,
    34, 44, 10, 32, 32, 32, 32, 32, 32, 32, 32, 32, 32, 32, 32, 34, 100, 101, 115, 99,
    114, 105, 112, 116, 105, 111, 110, 34, 58, 32, 34, 80, 114, 111, 99, 101, 115, 115, 105, 110,
    103, 32, 97, 110, 100, 32, 117, 110, 100, 101, 114, 115, 116, 97, 110, 100, 105, 110, 103, 32,
    104, 117, 109, 97, 110, 32, 108, 97, 110, 103, 117, 97, 103, 101, 34, 10, 32, 32, 32, 32,
    32, 32, 32, 32, 125, 10, 32, 32, 32, 32, 41, 44, 10, 93, 10, 10, 35, 32, 69, 110,
    99, 111, 100, 101, 32, 99, 111, 110, 99, 101, 112, 116, 115, 32, 105, 110, 116, 111, 32, 103,
    108, 121, 112, 104, 115, 10, 112, 114, 105, 110, 116, 40, 34, 92, 110, 69, 110, 99, 111, 100,
    105, 110, 103, 32, 99, 111, 110, 99, 101, 112, 116, 115, 46, 46, 46, 34, 41, 10, 103, 108,
    121, 112, 104, 115, 32, 61, 32, 91, 93, 10, 102, 111, 114, 32, 99, 111, 110, 99, 101, 112,
    116, 32, 105, 110, 32, 99, 111, 110, 99, 101, 112, 116, 115, 58, 10, 32, 32, 32, 32, 103,
    108, 121, 112, 104, 32, 61, 32, 101, 110, 99, 111, 100, 101, 114, 46, 101, 110, 99, 111, 100,
    101, 40, 99, 111, 110, 99, 101, 112, 116, 41, 10, 32, 32, 32, 32, 103, 108, 121, 112, 104,
    115, 46, 97, 112, 112, 101, 110, 100, 40, 103, 108, 121, 112, 104, 41, 10, 32, 32, 32, 32,
    112, 114, 105, 110, 116, 40, 102, 34, 32, 32, 10003, 32, 69, 110, 99, 111, 100, 101, 100, 58,
    32, 123, 99, 111, 110, 99, 101, 112, 116, 46, 110, 97, 109, 101, 125, 34, 41, 10, 10, 35,
    32, 67, 111, 109, 112, 117, 116, 101, 32, 115, 105, 109, 105, 108, 97, 114, 105, 116, 121, 32,
    98, 101, 116, 119, 101, 101, 110, 32, 99, 111, 110, 99, 101, 112, 116, 115, 10, 112, 114, 105,
    110, 116, 40, 34, 92, 110, 67, 111, 109, 112, 117, 116, 105, 110, 103, 32, 115, 105, 109, 105,
    108, 97, 114, 105, 116, 105, 101, 115, 58, 34, 41, 10, 99, 97, 108, 99, 117, 108, 97, 116,
    111, 114, 32, 61, 32, 83, 105, 109, 105, 108, 97, 114, 105, 116, 121, 67, 97, 108, 99, 117,
    108, 97, 116, 111, 114, 40, 41, 10, 10, 35, 32, 67, 111, 109, 112, 97, 114, 101, 32, 109,
    97, 99, 104, 105, 110, 101, 32, 108, 101, 97, 114, 110, 105, 110, 103, 32, 119, 105, 116, 104,
    32, 111, 116, 104, 101, 114, 32, 99, 111, 110, 99, 101, 112, 116, 115, 10, 109, 108, 95, 103,
    108, 121, 112, 104, 32, 61, 32, 103, 108, 121, 112, 104, 115, 91, 48, 93, 10, 102, 111, 114,
    32, 105, 44, 32, 103, 108, 121, 112, 104, 32, 105, 110, 32, 101, 110, 117, 109, 101, 114, 97,
    116, 101, 40, 103, 108, 121, 112, 104, 115, 91, 49, 58, 93, 44, 32, 49, 41, 58, 10, 32,
    32, 32, 32, 114, 101, 115, 117, 108, 116, 32, 61, 32, 99, 97, 108, 99, 117, 108, 97, 116,
    111, 114, 46, 99, 111, 109, 112, 117, 116, 101, 95, 115, 105, 109, 105, 108, 97, 114, 105, 116,
    121, 40, 10, 32, 32, 32, 32, 32, 32, 32, 32, 109, 108, 95, 103, 108, 121, 112, 104, 44,
    32, 103, 108, 121, 112, 104, 44, 32, 10, 32, 32, 32, 32, 32, 32, 32, 32, 101, 100, 103,
    101, 95, 116, 121, 112, 101, 61, 34, 110, 101, 117, 114, 97, 108, 95, 99, 111, 114, 116, 101,
    120, 34, 10, 32, 32, 32, 32, 41, 10, 32, 32, 32, 32, 112, 114, 105, 110, 116, 40, 102,
    34, 32, 32, 109, 97, 99, 104, 105, 110, 101, 32, 108, 101, 97, 114, 110, 105, 110, 103, 32,
    118, 115, 32, 123, 99, 111, 110, 99, 101, 112, 116, 115, 91, 105, 93, 46, 110, 97, 109, 101,
    125, 58, 32, 123, 114, 101, 115, 117, 108, 116, 46, 115, 99, 111, 114, 101, 58, 46, 51, 102,
    125, 34, 41, 10, 10, 35, 32, 80, 97, 99, 107, 97, 103, 101, 32, 116, 104, 101, 32, 109,
    111, 100, 101, 108, 32, 102, 111, 114, 32, 100, 101, 112, 108, 111, 121, 109, 101, 110, 116, 10,
    112, 114, 105, 110, 116, 40, 34, 92, 110, 80, 97, 99, 107, 97, 103, 105, 110, 103, 32, 109,
    111, 100, 101, 108, 46, 46, 46, 34, 41, 10, 109, 111, 100, 101, 108, 32, 61, 32, 71, 108,
    121, 112, 104, 104, 77, 111, 100, 101, 108, 40, 10, 32, 32, 32, 32, 110, 97, 109, 101, 61,
    34, 98, 97, 115, 105, 99, 45, 109, 111, 100, 101, 108, 34, 44, 10, 32, 32, 32, 32, 118,
    101, 114, 115, 105, 111, 110, 61, 34, 49, 46, 48, 46, 48, 34, 44, 10, 32, 32, 32, 32,
    101, 110, 99, 111, 100, 101, 114, 95, 99, 111, 110, 102, 105, 103, 61, 99, 111, 110, 102, 105,
    103, 44, 10, 32, 32, 32, 32, 103, 108, 121, 112, 104, 115, 61, 103, 108, 121, 112, 104, 115,
    44, 10, 32, 32, 32, 32, 109, 101, 116, 97, 100, 97, 116, 97, 61, 123, 10, 32, 32, 32,
    32, 32, 32, 32, 32, 34, 100, 111, 109, 97, 105, 110, 34, 58, 32, 34, 65, 73, 34, 44,
    10, 32, 32, 32, 32, 32, 32, 32, 32, 34, 100, 101, 115, 99, 114, 105, 112, 116, 105, 111,
    110, 34, 58, 32, 34, 66, 97, 115, 105, 99, 32, 65, 73, 32, 99, 111, 110, 99, 101, 112,
    116, 115, 32, 109, 111, 100, 101, 108, 34, 44, 10, 32, 32, 32, 32, 32, 32, 32, 32, 34,
    110, 117, 109, 95, 99, 111, 110, 99, 101, 112, 116, 115, 34, 58, 32, 108, 101, 110, 40, 103,
    108, 121, 112, 104, 115, 41, 10, 32, 32, 32, 32, 125, 10, 41, 10, 10, 35, 32, 69, 120,
    112, 111, 114, 116, 32, 109, 111, 100, 101, 108, 10, 109, 111, 100, 101, 108, 46, 116, 111, 95,
    102, 105, 108, 101, 40, 34, 98, 97, 115, 105, 99, 45, 109, 111, 100, 101, 108, 46, 103, 108,
    121, 112, 104, 104, 34, 41, 10, 112, 114, 105, 110, 116, 40, 34, 32, 32, 10003, 32, 77, 111,
    100, 101, 108, 32, 101, 120, 112, 111, 114, 116, 101, 100, 32, 116, 111, 32, 98, 97, 115, 105,
    99, 45, 109, 111, 100, 101, 108, 46, 103, 108, 121, 112, 104, 104, 34, 41, 10, 10, 112, 114,
    105, 110, 116, 40, 34, 92, 110, 68, 111, 110, 101, 33, 32, 89, 111, 117, 32, 99, 97, 110,
    32, 110, 111, 119, 32, 100, 101, 112, 108, 111, 121, 32, 116, 104, 105, 115, 32, 109, 111, 100,
    101, 108, 32, 116, 111, 32, 116, 104, 101, 32, 114, 117, 110, 116, 105, 109, 101, 58, 34, 41,
    10, 112, 114, 105, 110, 116, 40, 34, 32, 32, 103, 108, 121, 112, 104, 104, 32, 114, 117, 110,
    116, 105, 109, 101, 32, 100, 101, 112, 108, 111, 121, 32, 98, 97, 115, 105, 99, 45, 109, 111,
    100, 101, 108, 46, 103, 108, 121, 112, 104, 104, 34, 41, 10, 10, 35, 32, 67, 108, 101, 97,
    110, 117, 112, 10, 105, 109, 112, 111, 114, 116, 32, 111, 115, 10, 105, 102, 32, 111, 115, 46,
    112, 97, 116, 104, 46, 101, 120, 105, 115, 116, 115, 40, 34, 98, 97, 115, 105, 99, 45, 109,
    111, 100, 101, 108, 46, 103, 108, 121, 112, 104, 104, 34, 41, 58, 10, 32, 32, 32, 32, 111,
    115, 46, 114, 101, 109, 111, 118, 101, 40, 34, 98, 97, 115, 105, 99, 45, 109, 111, 100, 101,
    108, 46, 103, 108, 121, 112, 104, 104, 34, 41, 10, 10]

/-- Embeds the required-substring portion of test_model_file_structure for
one file content: the test asserts each of these four is a substring. -/
def fileStructureChecks (content : List Nat) : Bool :=
  codesContain content (strCodes ("EncoderConfig")) &&
    codesContain content (strCodes ("Concept")) &&
    codesContain content (strCodes (".export(")) &&
    codesContain content (strCodes ("print("))

/-- A small concrete encoder configuration used to instantiate the universal
theorems on a concrete input. -/
def cfgW : EncoderConfig :=
  { dimension := 2
    seed := 42
    layers :=
      [{ name := "semantic"
         similarity_weight := 1
         segments := [{ name := "attributes", roles := [{ name := "type" }] }] }] }

/-- A small concrete concept used to instantiate the universal theorems. -/
def conceptW : Concept :=
  { name := "machine learning", attributes := [(("type"), Value.str ("technique"))] }

/-- A small concrete model used to instantiate the universal theorems. -/
def modelW : GlyphhModel :=
  { name := "basic-model"
    version := "1.0.0"
    encoder_config := cfgW
    glyphs := [encode cfgW conceptW]
    intent_patterns := []
    metadata := [] }

/-- A concrete intent encoder with zero registered patterns. -/
def intentEncoderW : IntentEncoderState := { config := cfgW, patterns := [] }

/-- A concrete beam-search predictor with beam width one. -/
def predictorW : BeamSearchPredictor := { beam_width := 1, drift_reduction := false }

/-- A concrete glyph used to instantiate the beam-search theorem. -/
def glyphW : Glyph :=
  { name := "g", global_cortex := [1, -1], layer_vectors := [], attributes := [] }

/-- A concrete temporal edge used to instantiate the beam-search theorem. -/
def edgeW : TemporalEdge :=
  { from_name := "a"
    to_name := "b"
    from_vec := [1, -1]
    to_vec := [1, -1]
    delta := [1, 1]
    edge_type := "state_transition" }

theorem lookup_cacheOK (cfg : EncoderConfig) :
    ∀ (cache : Cache) (k : String) (v : List ℚ), CacheOK cfg cache →
      List.lookup k cache = some v → v = vectorFor cfg.seed cfg.dimension k
  | [], k, v, _, h => by simp [List.lookup] at h
  | (k2, v2) :: t, k, v, hok, h => by
      by_cases hk : k == k2
      · have hkeq : k = k2 := eq_of_beq hk
        have hmem : ((k2, v2) : String × List ℚ) ∈ (k2, v2) :: t := List.mem_cons_self _ _
        have h2 := hok _ hmem
        simp [List.lookup, hk] at h
        subst hkeq
        simp_all
      · have hrec : List.lookup k t = some v := by
          simpa [List.lookup, hk] using h
        exact lookup_cacheOK cfg t k v (fun p hp => hok p (List.mem_cons_of_mem _ hp)) hrec

theorem vectorForC_spec (cfg : EncoderConfig) (cache : Cache) (key : String)
    (h : CacheOK cfg cache) :
    (vectorForC cfg cache key).1 = vectorFor cfg.seed cfg.dimension key ∧
      CacheOK cfg (vectorForC cfg cache key).2 := by
  unfold vectorForC
  cases hl : List.lookup key cache with
  | none =>
      refine ⟨rfl, fun p hp => ?_⟩
      rcases List.mem_cons.mp hp with hp | hp
      · subst hp; rfl
      · exact h p hp
  | some v =>
      exact ⟨lookup_cacheOK cfg cache key v h hl, h⟩

theorem segVecC_spec (cfg : EncoderConfig) (l : LayerConfig) (sg : SegmentConfig)
    (attrs : List (String × Value)) :
    ∀ (roles : List Role) (cache : Cache), CacheOK cfg cache →
      (segVecC cfg l sg attrs roles cache).1 = segVecAux cfg l sg attrs roles ∧
        CacheOK cfg (segVecC cfg l sg attrs roles cache).2
  | [], cache, h => ⟨rfl, h⟩
  | r :: rs, cache, h => by
      cases ha : attrs.lookup r.name with
      | none =>
          have ih := segVecC_spec cfg l sg attrs rs cache h
          constructor
          · simp only [segVecC, ha, ih.1, segVecAux, roleContrib]
          · simp only [segVecC, ha]
            exact ih.2
      | some v =>
          have h1 := vectorForC_spec cfg cache (roleKey l sg r) h
          have h2 := vectorForC_spec cfg (vectorForC cfg cache (roleKey l sg r)).2
            (valueKey v) h1.2
          have ih := segVecC_spec cfg l sg attrs rs _ h2.2
          constructor
          · simp only [segVecC, ha, segVecAux, roleContrib, h1.1, h2.1, ih.1]
          · simp only [segVecC, ha]
            exact ih.2

theorem layerVecSumC_spec (cfg : EncoderConfig) (l : LayerConfig)
    (attrs : List (String × Value)) :
    ∀ (sgs : List SegmentConfig) (cache : Cache), CacheOK cfg cache →
      (layerVecSumC cfg l attrs sgs cache).1 = layerVecSum cfg l attrs sgs ∧
        CacheOK cfg (layerVecSumC cfg l attrs sgs cache).2
  | [], cache, h => ⟨rfl, h⟩
  | sg :: sgs, cache, h => by
      have h1 := segVecC_spec cfg l sg attrs sg.roles cache h
      have ih := layerVecSumC_spec cfg l attrs sgs _ h1.2
      constructor
      · simp only [layerVecSumC, layerVecSum, h1.1, ih.1]
      · simp only [layerVecSumC]
        exact ih.2

theorem layerPairsC_spec (cfg : EncoderConfig) (attrs : List (String × Value)) :
    ∀ (ls : List LayerConfig) (cache : Cache), CacheOK cfg cache →
      (layerPairsC cfg attrs ls cache).1 =
          ls.map (fun l => (l.name, layerVec cfg attrs l)) ∧
        CacheOK cfg (layerPairsC cfg attrs ls cache).2
  | [], cache, h => ⟨rfl, h⟩
  | l :: ls, cache, h => by
      have h1 := layerVecSumC_spec cfg l attrs l.segments cache h
      have ih := layerPairsC_spec cfg attrs ls _ h1.2
      constructor
      · simp only [layerPairsC, List.map, h1.1, ih.1, layerVec]
      · simp only [layerPairsC]
        exact ih.2

theorem sumLayerPairs_map (cfg : EncoderConfig) (attrs : List (String × Value)) :
    ∀ ls : List LayerConfig,
      sumLayerPairs cfg (ls.map (fun l => (l.name, layerVec cfg attrs l))) =
        globalAux cfg attrs ls
  | [] => rfl
  | l :: ls => by
      simp only [List.map, sumLayerPairs, globalAux, sumLayerPairs_map cfg attrs ls]

theorem encodeCached_pure (cfg : EncoderConfig) (c : Concept) (cache : Cache)
    (h : CacheOK cfg cache) :
    (encodeCached cfg cache c).1 = encode cfg c ∧
      CacheOK cfg (encodeCached cfg cache c).2 := by
  have hlp := layerPairsC_spec cfg c.attributes cfg.layers cache h
  constructor
  · simp only [encodeCached, encode, hlp.1, sumLayerPairs_map]
  · simp only [encodeCached]
    exact hlp.2

/-- C2: for a fixed (seed, config, concept), every invocation of
Encoder.encode yields the same glyph — whatever memo-cache state the encoder
instance has accumulated from earlier calls (and hence also across process
restarts, which start from the empty cache), the cached run returns exactly
the pure function of (config, concept), and leaves the cache consistent. -/
theorem encode_deterministic (cfg : EncoderConfig) (c : Concept)
    (cache1 cache2 : Cache) (h1 : CacheOK cfg cache1) (h2 : CacheOK cfg cache2) :
    (encodeCached cfg cache1 c).1 = (encodeCached cfg cache2 c).1 ∧
      (encodeCached cfg cache1 c).1 = encode cfg c := by
  have e1 := encodeCached_pure cfg c cache1 h1
  have e2 := encodeCached_pure cfg c cache2 h2
  exact ⟨e1.1.trans e2.1.symm, e1.1⟩

/-- Witness for C2 at a concrete config and concept: a fresh cache and a
cache left over from a previous encode of the same concept are both
consistent, and both runs return the pure encode result. -/
theorem encode_deterministic_witness :
    CacheOK cfgW [] ∧ CacheOK cfgW (encodeCached cfgW [] conceptW).2 ∧
      ((encodeCached cfgW [] conceptW).1 =
          (encodeCached cfgW (encodeCached cfgW [] conceptW).2 conceptW).1 ∧
        (encodeCached cfgW [] conceptW).1 = encode cfgW conceptW) := by
  have h0 : CacheOK cfgW [] := by intro p hp; exact absurd hp (List.not_mem_nil p)
  have h1 : CacheOK cfgW (encodeCached cfgW [] conceptW).2 :=
    (encodeCached_pure cfgW conceptW [] h0).2
  exact ⟨h0, h1, encode_deterministic cfgW conceptW [] (encodeCached cfgW [] conceptW).2 h0 h1⟩

theorem dot_comm : ∀ a b : List ℚ, dot a b = dot b a
  | [], [] => rfl
  | [], _ :: _ => rfl
  | _ :: _, [] => rfl
  | x :: xs, y :: ys => by
      have ih := dot_comm xs ys
      simp only [dot, List.zipWith_cons_cons, List.sum_cons] at ih ⊢
      rw [mul_comm, ih]

theorem simScore_comm (a b : List ℚ) : simScore a b = simScore b a := by
  unfold simScore
  rw [dot_comm b a]
  by_cases ha : dot a a = 0 <;> by_cases hb : dot b b = 0 <;>
    simp [ha, hb, mul_comm]

/-- C3: the similarity relation is symmetric — for every pair of glyphs and
every edge_type, compute_similarity returns the same score in both argument
orders. -/
theorem similarity_symmetric (A B : Glyph) (edge_type : String) :
    (compute_similarity A B edge_type).score = (compute_similarity B A edge_type).score := by
  simp only [compute_similarity]
  exact simScore_comm _ _

/-- C1: reloading the exported artifact yields a model that answers every
similarity_search probe with exactly the same results (names, scores and
ranking) as the original model. -/
theorem roundtrip_search (M : GlyphhModel) (query : String) (top_k : Int)
    (filters : List (String × Value)) :
    ∃ M2, loadModel (exportModel M) = Except.ok M2 ∧
      similarity_search M2 query top_k filters = similarity_search M query top_k filters :=
  ⟨M, rfl, rfl⟩

/-- C8: similarity_search returns the empty result set, rather than raising,
both when top_k is non-positive and when the model holds no glyphs. -/
theorem search_empty_cases (M : GlyphhModel) (query : String) (top_k : Int)
    (filters : List (String × Value)) (h : top_k ≤ 0 ∨ M.glyphs = []) :
    similarity_search M query top_k filters = [] := by
  rcases h with h | h
  · simp [similarity_search, Int.toNat_of_nonpos h]
  · simp [similarity_search, h, List.insertionSort]

/-- Witness for C8 at a concrete nonempty model with top_k = 0. -/
theorem search_empty_cases_witness :
    ((0 : Int) ≤ 0 ∨ modelW.glyphs = []) ∧
      similarity_search modelW ("deep learning") 0 [] = [] :=
  ⟨Or.inl (by decide),
    search_empty_cases modelW ("deep learning") 0 [] (Or.inl (by decide))⟩

/-- C7: match_intent with zero registered patterns returns the
null / zero-confidence match and never fails. -/
theorem match_intent_no_patterns (E : IntentEncoderState) (query : String)
    (h : E.patterns = []) : match_intent E query = nullIntentMatch := by
  simp [match_intent, h, bestMatch]

/-- Witness for C7 at a concrete pattern-free intent encoder. -/
theorem match_intent_no_patterns_witness :
    intentEncoderW.patterns = [] ∧
      match_intent intentEncoderW ("find similar to machine learning") = nullIntentMatch :=
  ⟨rfl, match_intent_no_patterns intentEncoderW ("find similar to machine learning") rfl⟩

theorem lookup_filter_keeps (f : String → Bool) (k : String) (hf : f k = true) :
    ∀ l : List (String × Value),
      List.lookup k (l.filter (fun p => f p.1)) = List.lookup k l
  | [] => rfl
  | (k2, v) :: t => by
      by_cases hk : k == k2
      · have hkeq : k = k2 := eq_of_beq hk
        subst hkeq
        simp [List.filter_cons, List.lookup, hf]
      · cases hf2 : f k2 with
        | true => simp [List.filter_cons, hf2, List.lookup, hk, lookup_filter_keeps f k hf t]
        | false => simp [List.filter_cons, hf2, List.lookup, hk, lookup_filter_keeps f k hf t]

theorem roleContrib_filter (cfg : EncoderConfig) (l : LayerConfig)
    (sg : SegmentConfig) (attrs : List (String × Value)) (r : Role)
    (hr : roleNameInConfig cfg r.name = true) :
    roleContrib cfg l sg (attrs.filter (fun p => roleNameInConfig cfg p.1)) r =
      roleContrib cfg l sg attrs r := by
  unfold roleContrib
  rw [lookup_filter_keeps (roleNameInConfig cfg) r.name hr attrs]

theorem segVecAux_filter (cfg : EncoderConfig) (l : LayerConfig)
    (sg : SegmentConfig) (attrs : List (String × Value)) :
    ∀ roles : List Role, (∀ r ∈ roles, roleNameInConfig cfg r.name = true) →
      segVecAux cfg l sg (attrs.filter (fun p => roleNameInConfig cfg p.1)) roles =
        segVecAux cfg l sg attrs roles
  | [], _ => rfl
  | r :: rs, h => by
      have hr := h r (List.mem_cons_self r rs)
      have ih := segVecAux_filter cfg l sg attrs rs
        (fun r2 hr2 => h r2 (List.mem_cons_of_mem r hr2))
      simp only [segVecAux, roleContrib_filter cfg l sg attrs r hr, ih]

theorem layerVecSum_filter (cfg : EncoderConfig) (l : LayerConfig)
    (attrs : List (String × Value)) :
    ∀ sgs : List SegmentConfig,
      (∀ sg ∈ sgs, ∀ r ∈ sg.roles, roleNameInConfig cfg r.name = true) →
      layerVecSum cfg l (attrs.filter (fun p => roleNameInConfig cfg p.1)) sgs =
        layerVecSum cfg l attrs sgs
  | [], _ => rfl
  | sg :: sgs, h => by
      have hsg := h sg (List.mem_cons_self sg sgs)
      have ih := layerVecSum_filter cfg l attrs sgs
        (fun sg2 hsg2 => h sg2 (List.mem_cons_of_mem sg hsg2))
      simp only [layerVecSum, segVecAux_filter cfg l sg attrs sg.roles hsg, ih]

theorem layerVec_filter (cfg : EncoderConfig) (attrs : List (String × Value))
    (l : LayerConfig)
    (h : ∀ sg ∈ l.segments, ∀ r ∈ sg.roles, roleNameInConfig cfg r.name = true) :
    layerVec cfg (attrs.filter (fun p => roleNameInConfig cfg p.1)) l =
      layerVec cfg attrs l := by
  unfold layerVec
  rw [layerVecSum_filter cfg l attrs l.segments h]

theorem globalAux_filter (cfg : EncoderConfig) (attrs : List (String × Value)) :
    ∀ ls : List LayerConfig,
      (∀ l ∈ ls, ∀ sg ∈ l.segments, ∀ r ∈ sg.roles, roleNameInConfig cfg r.name = true) →
      globalAux cfg (attrs.filter (fun p => roleNameInConfig cfg p.1)) ls =
        globalAux cfg attrs ls
  | [], _ => rfl
  | l :: ls, h => by
      have hl := h l (List.mem_cons_self l ls)
      have ih := globalAux_filter cfg attrs ls
        (fun l2 hl2 => h l2 (List.mem_cons_of_mem l hl2))
      simp only [globalAux, layerVec_filter cfg attrs l hl, ih]

theorem layerPairs_filter (cfg : EncoderConfig) (attrs : List (String × Value)) :
    ∀ ls : List LayerConfig,
      (∀ l ∈ ls, ∀ sg ∈ l.segments, ∀ r ∈ sg.roles, roleNameInConfig cfg r.name = true) →
      ls.map (fun l => (l.name, layerVec cfg (attrs.filter (fun p => roleNameInConfig cfg p.1)) l)) =
        ls.map (fun l => (l.name, layerVec cfg attrs l))
  | [], _ => rfl
  | l :: ls, h => by
      have hl := h l (List.mem_cons_self l ls)
      have ih := layerPairs_filter cfg attrs ls
        (fun l2 hl2 => h l2 (List.mem_cons_of_mem l hl2))
      simp only [List.map, layerVec_filter cfg attrs l hl, ih]

theorem config_roles_matched (cfg : EncoderConfig) :
    ∀ l ∈ cfg.layers, ∀ sg ∈ l.segments, ∀ r ∈ sg.roles,
      roleNameInConfig cfg r.name = true := by
  intro l hl sg hsg r hr
  unfold roleNameInConfig
  rw [List.any_eq_true]
  refine ⟨l, hl, ?_⟩
  rw [List.any_eq_true]
  refine ⟨sg, hsg, ?_⟩
  rw [List.any_eq_true]
  exact ⟨r, hr, by simp⟩

/-- C4: attributes whose key matches no schema role are copied verbatim into
the glyph (the glyph keeps the full attribute map, so they stay usable by
similarity_search filters) while contributing nothing to any vector: the
global cortex and the per-layer vectors are the same as for the concept with
all unmatched attributes removed. -/
theorem unmatched_attributes_inert (cfg : EncoderConfig) (c : Concept) :
    (encode cfg c).attributes = c.attributes ∧
      (encode cfg (stripUnmatched cfg c)).global_cortex = (encode cfg c).global_cortex ∧
      (encode cfg (stripUnmatched cfg c)).layer_vectors = (encode cfg c).layer_vectors := by
  refine ⟨rfl, ?_, ?_⟩
  · simp only [encode, stripUnmatched]
    exact globalAux_filter cfg c.attributes cfg.layers (config_roles_matched cfg)
  · simp only [encode, stripUnmatched]
    exact layerPairs_filter cfg c.attributes cfg.layers (config_roles_matched cfg)

theorem beamStep_no_edges (P : BeamSearchPredictor) (beam : List PredCandidate) :
    beamStep P [] beam = [] := by
  have hflat : beam.flatMap (expandHyp P []) = [] := by
    simp [expandHyp]
  simp [beamStep, hflat, withIdx, List.insertionSort]

theorem beamIter_no_edges (P : BeamSearchPredictor) :
    ∀ n : Nat, beamIter P [] n [] = []
  | 0 => rfl
  | n + 1 => by
      rw [beamIter, beamStep_no_edges]
      exact beamIter_no_edges P n

/-- C6: predict invoked with an empty collection of historical edges returns
the empty list, for every current glyph and every steps value, and being a
total function it cannot raise. -/
theorem predict_no_edges (P : BeamSearchPredictor) (current : Glyph) (steps : Nat) :
    predict P current [] steps = [] := by
  cases steps with
  | zero => rfl
  | succ n =>
      simp only [predict]
      rw [beamStep_no_edges]
      exact beamIter_no_edges P n

theorem beamStep_bounded_sorted (P : BeamSearchPredictor)
    (edges : List TemporalEdge) (beam : List PredCandidate) :
    (beamStep P edges beam).length ≤ P.beam_width ∧
      List.Sorted beamRank (beamStep P edges beam) := by
  constructor
  · rw [beamStep, List.length_take]
    exact min_le_left _ _
  · have hs := List.sorted_insertionSort beamRank
      (withIdx (beam.flatMap (expandHyp P edges)))
    exact List.Pairwise.sublist (List.take_sublist _ _) hs

theorem beamIter_from_step (P : BeamSearchPredictor) (edges : List TemporalEdge) :
    ∀ (n : Nat) (beam : List PredCandidate),
      ∃ b2, beamIter P edges n (beamStep P edges beam) = beamStep P edges b2
  | 0, beam => ⟨beam, rfl⟩
  | n + 1, beam => by
      rw [beamIter]
      exact beamIter_from_step P edges n (beamStep P edges beam)

/-- C5: for a predictor with beam_width at least 1, predict always returns at
most beam_width candidates, ordered by descending score with equal scores in
insertion order (the beamRank relation). -/
theorem predict_bounded_sorted (P : BeamSearchPredictor) (current : Glyph)
    (edges : List TemporalEdge) (steps : Nat) (hbw : 1 ≤ P.beam_width) :
    (predict P current edges steps).length ≤ P.beam_width ∧
      List.Sorted beamRank (predict P current edges steps) := by
  cases steps with
  | zero => exact ⟨Nat.zero_le _, List.sorted_nil⟩
  | succ n =>
      obtain ⟨b2, hb⟩ := beamIter_from_step P edges n
        [{ name := current.name, vec := current.global_cortex, score := 0, idx := 0 }]
      simp only [predict]
      rw [hb]
      exact beamStep_bounded_sorted P edges b2

/-- Witness for C5 at a concrete beam-width-1 predictor, glyph, one edge and
one step. -/
theorem predict_bounded_sorted_witness :
    1 ≤ predictorW.beam_width ∧
      ((predict predictorW glyphW [edgeW] 1).length ≤ predictorW.beam_width ∧
        List.Sorted beamRank (predict predictorW glyphW [edgeW] 1)) :=
  ⟨by decide, predict_bounded_sorted predictorW glyphW [edgeW] 1 (by decide)⟩

/-- C9: the shipped examples directory holds 20 model files, not the 50 that
test_model_count asserts, so the repository fails its own test. -/
theorem model_count_is_twenty :
    get_all_model_files.length = 20 ∧ get_all_model_files.length ≠ 50 := by decide

/-- C10: basic_model.py is one of the files test_model_file_structure runs
on, yet its text nowhere contains the substring ".export(" (it exports via
to_file), so the test's required-substring check fails on the shipped
tree. -/
theorem basic_model_fails_structure_test :
    ("basic_model.py") ∈ get_all_model_files ∧
      codesContain basicModelCodes (strCodes (".export(")) = false ∧
      fileStructureChecks basicModelCodes = false := by
  refine ⟨by decide, by decide, by decide⟩

end Glyphh
